import Mathlib

/-!
Shallow embedding of `bank_embedded_task/main.c`: two bank accounts, two
concurrent transfer threads, a fixed pairwise lock order, a shared
termination flag with a reason string, and a deadline watchdog in `main`.

C `double` balances are modelled as exact rationals (`Rat`); the C `long`
counter `successful_transfers` as `Nat`; the C `int` return value of
`transfer_funds` as `Int` (0 on success, -1 on failure).
-/

namespace BankTask

/-- The two mutexes of the program, standing for the addresses
`&account1.mutex` and `&account2.mutex` that `lock_pair` compares. -/
inductive MutexId where
  | acct1
  | acct2
  deriving DecidableEq, Repr

/-- The acquisition order chosen by `lock_pair(m1, m2)`:
`if (m1 == &account1.mutex) { lock m1; lock m2; } else { lock m2; lock m1; }`. -/
def lock_pair_order (m1 m2 : MutexId) : List MutexId :=
  if m1 = MutexId.acct1 then [m1, m2] else [m2, m1]

/-- Effect of `lock_pair` on the set of locks held by the caller: each
`pthread_mutex_lock` adds the mutex to the caller's held set. -/
def lock_pair (held : List MutexId) (m1 m2 : MutexId) : List MutexId :=
  (lock_pair_order m1 m2).foldl (fun h m => m :: h) held

/-- The `Account` struct: balance, fixed transfer amount, success counter, id.
The mutex is modelled separately (see `MutexId` and the lock system). -/
structure Account where
  balance : Rat
  transfer_amount : Rat
  successful_transfers : Nat
  id : Nat
  deriving DecidableEq, Repr

/-- The record emitted by the `printf` on a successful transfer:
`"SUCCESS: %d -> %d | Amt: %.2f | New Balance %d: %.2f"` with arguments
`source->id, dest->id, source->transfer_amount, source->id, source->balance`. -/
structure TransferRecord where
  src_id : Nat
  dest_id : Nat
  amount : Rat
  shown_id : Nat
  shown_balance : Rat
  deriving DecidableEq, Repr

/-- Result of one `transfer_funds` call: the C return value, the two account
structs after the call, the globals `is_terminated` / `termination_reason`
after the call, and the emitted log record (if any). -/
structure TransferResult where
  ret : Int
  source : Account
  dest : Account
  terminated : Bool
  reason : String
  record : Option TransferRecord
  deriving DecidableEq, Repr

/-- `transfer_funds(source, dest)` from the C source, with the globals
`is_terminated` and `termination_reason` passed and returned explicitly.
The whole body runs between `lock_pair` and `unlock_pair`, so it is one
atomic step of the interleaving semantics. -/
def transfer_funds (source dest : Account) (is_terminated : Bool)
    (termination_reason : String) : TransferResult :=
  if is_terminated then
    { ret := -1, source := source, dest := dest, terminated := is_terminated,
      reason := termination_reason, record := none }
  else if source.balance < source.transfer_amount then
    { ret := -1, source := source, dest := dest, terminated := true,
      reason := "Insufficient funds in Account " ++ toString source.id,
      record := none }
  else
    let source' : Account :=
      { source with balance := source.balance - source.transfer_amount,
                    successful_transfers := source.successful_transfers + 1 }
    let dest' : Account :=
      { dest with balance := dest.balance + source.transfer_amount }
    { ret := 0, source := source', dest := dest', terminated := is_terminated,
      reason := termination_reason,
      record := some { src_id := source.id, dest_id := dest.id,
                       amount := source.transfer_amount,
                       shown_id := source.id, shown_balance := source'.balance } }

/-- The shared global state: the two accounts and the termination globals. -/
structure BankState where
  account1 : Account
  account2 : Account
  is_terminated : Bool
  termination_reason : String
  deriving DecidableEq, Repr

/-- Transfer direction: `thread_transfer_1_to_2` calls
`transfer_funds(&account1, &account2)`, `thread_transfer_2_to_1` the reverse. -/
inductive Dir where
  | oneToTwo
  | twoToOne
  deriving DecidableEq, Repr

/-- Result of one transfer step on the global state. -/
structure StepResult where
  ret : Int
  state : BankState
  record : Option TransferRecord
  deriving DecidableEq, Repr

/-- One `transfer_funds` call in the given direction, acting on the globals. -/
def step_transfer (d : Dir) (s : BankState) : StepResult :=
  match d with
  | Dir.oneToTwo =>
      let o := transfer_funds s.account1 s.account2 s.is_terminated s.termination_reason
      { ret := o.ret,
        state := { account1 := o.source, account2 := o.dest,
                   is_terminated := o.terminated, termination_reason := o.reason },
        record := o.record }
  | Dir.twoToOne =>
      let o := transfer_funds s.account2 s.account1 s.is_terminated s.termination_reason
      { ret := o.ret,
        state := { account1 := o.dest, account2 := o.source,
                   is_terminated := o.terminated, termination_reason := o.reason },
        record := o.record }

/-- The global state right after `main` initialises the accounts
(ids 1 and 2, counters 0, flag clear, empty reason) and `get_user_input`
fills in the balances and transfer amounts. -/
def initState (b1 t1 b2 t2 : Rat) : BankState :=
  { account1 := { balance := b1, transfer_amount := t1, successful_transfers := 0, id := 1 },
    account2 := { balance := b2, transfer_amount := t2, successful_transfers := 0, id := 2 },
    is_terminated := false,
    termination_reason := "" }

/-- Control points of a transfer thread's loop
(`while (!is_terminated) { if (transfer_funds(..) != 0) break; nanosleep(..); }`):
`atCheck` is the `while` condition, `atCall` the `transfer_funds` call,
`atSleep` the `nanosleep`, `stopped` the loop exit. -/
inductive ActorPhase where
  | atCheck
  | atCall
  | atSleep
  | stopped
  deriving DecidableEq, Repr

/-- One step of a transfer thread's loop, acting on the shared state and the
thread's own control point. -/
def actor_step (d : Dir) : BankState × ActorPhase → BankState × ActorPhase
  | (b, ActorPhase.atCheck) =>
      if b.is_terminated then (b, ActorPhase.stopped) else (b, ActorPhase.atCall)
  | (b, ActorPhase.atCall) =>
      let r := step_transfer d b
      if r.ret = 0 then (r.state, ActorPhase.atSleep) else (r.state, ActorPhase.stopped)
  | (b, ActorPhase.atSleep) => (b, ActorPhase.atCheck)
  | (b, ActorPhase.stopped) => (b, ActorPhase.stopped)

/-- The starting control point of a transfer thread: it enters the `while`
condition directly, with no initial sleep. -/
def actor_start : ActorPhase := ActorPhase.atCheck

/-- Control points of the deadline watchdog in `main`: asleep in
`sleep(deadline_sec)`, then the `if (!is_terminated)` check (recording what it
read), then the body (or nothing) and done. -/
inductive WatchPC where
  | sleeping
  | observed (saw : Bool)
  | done
  deriving DecidableEq, Repr

/-- Whole-system state: shared globals plus the watchdog's control point.
Actor control points are not needed here because a whole `transfer_funds`
call is a single atomic step (it runs under both locks). -/
structure SysState where
  bank : BankState
  watch : WatchPC
  deriving DecidableEq, Repr

/-- Interleaving semantics of the program: either transfer thread performs one
`transfer_funds` call, or the watchdog wakes and runs its check and its
assignment as two separate steps (it holds no lock, so a transfer can
interleave between them). Granularity caveat: each write to
`termination_reason` is modelled here as one atomic whole-string update.
That is faithful for the balances, counters and the flag (every access to
them is a single machine word or runs under both account mutexes), but it is
coarser than the program for the reason buffer itself: the watchdog's
`strcpy` holds no lock and can interleave byte-wise with a transfer's
`snprintf`. The byte-level behaviour of those two racing copies is modelled
separately by `copyStores` / `Interleaving` below. -/
inductive SysStep : SysState → SysState → Prop
  | actor (d : Dir) (b : BankState) (w : WatchPC) :
      SysStep { bank := b, watch := w }
        { bank := (step_transfer d b).state, watch := w }
  | wcheck (b : BankState) :
      SysStep { bank := b, watch := WatchPC.sleeping }
        { bank := b, watch := WatchPC.observed b.is_terminated }
  | wset (b : BankState) :
      SysStep { bank := b, watch := WatchPC.observed false }
        { bank := { b with is_terminated := true,
                           termination_reason := "Global deadline expired" },
          watch := WatchPC.done }
  | wskip (b : BankState) :
      SysStep { bank := b, watch := WatchPC.observed true }
        { bank := b, watch := WatchPC.done }

/-- Reachability in the interleaving semantics. -/
abbrev SysReachable : SysState → SysState → Prop :=
  Relation.ReflTransGen SysStep

/-- Whole-system initial state. -/
def sysInit (b1 t1 b2 t2 : Rat) : SysState :=
  { bank := initState b1 t1 b2 t2, watch := WatchPC.sleeping }

/-- Thread identities for the lock-acquisition model. -/
inductive Tid where
  | t1
  | t2
  deriving DecidableEq, Repr

/-- The sequence in which thread `t` acquires the two mutexes, as dictated by
its `lock_pair` call: thread 1 calls `lock_pair(&account1.mutex,
&account2.mutex)`, thread 2 calls `lock_pair(&account2.mutex, &account1.mutex)`. -/
def acqSeq (t : Tid) : List MutexId :=
  match t with
  | Tid.t1 => lock_pair_order MutexId.acct1 MutexId.acct2
  | Tid.t2 => lock_pair_order MutexId.acct2 MutexId.acct1

/-- State of the two mutexes and the two threads' progress through
lock acquisition: `pc t` counts how many locks of `acqSeq t` thread `t`
holds (2 = inside the critical section). -/
structure LockSys where
  pc1 : Nat
  pc2 : Nat
  owner1 : Option Tid
  owner2 : Option Tid
  deriving DecidableEq, Repr

/-- Thread `t`'s progress counter. -/
def LockSys.pc (s : LockSys) (t : Tid) : Nat :=
  match t with
  | Tid.t1 => s.pc1
  | Tid.t2 => s.pc2

/-- Owner of mutex `m`. -/
def LockSys.owner (s : LockSys) (m : MutexId) : Option Tid :=
  match m with
  | MutexId.acct1 => s.owner1
  | MutexId.acct2 => s.owner2

/-- Set thread `t`'s progress counter. -/
def LockSys.setPc (s : LockSys) (t : Tid) (n : Nat) : LockSys :=
  match t with
  | Tid.t1 => { s with pc1 := n }
  | Tid.t2 => { s with pc2 := n }

/-- Set the owner of mutex `m`. -/
def LockSys.setOwner (s : LockSys) (m : MutexId) (o : Option Tid) : LockSys :=
  match m with
  | MutexId.acct1 => { s with owner1 := o }
  | MutexId.acct2 => { s with owner2 := o }

/-- Lock-level semantics: a thread blocks in `pthread_mutex_lock` until the
next mutex of its `lock_pair` order is free, acquires it, and after holding
both (its critical section) releases both via `unlock_pair` and loops. -/
inductive LockStep : LockSys → LockSys → Prop
  | acquire (s : LockSys) (t : Tid) (m : MutexId) :
      (acqSeq t).get? (s.pc t) = some m →
      s.owner m = none →
      LockStep s ((s.setOwner m (some t)).setPc t (s.pc t + 1))
  | release (s : LockSys) (t : Tid) :
      s.pc t = 2 →
      s.owner MutexId.acct1 = some t →
      s.owner MutexId.acct2 = some t →
      LockStep s (((s.setOwner MutexId.acct1 none).setOwner MutexId.acct2 none).setPc t 0)

/-- Initial lock state: both mutexes free, both threads before their first
acquisition. -/
def lockInit : LockSys :=
  { pc1 := 0, pc2 := 0, owner1 := none, owner2 := none }

/-- Reachability in the lock-level semantics. -/
abbrev LockReachable : LockSys → Prop :=
  Relation.ReflTransGen LockStep lockInit

/-- The three possible outcomes of a `transfer_funds` call, classified by the
branch the C control flow takes: already-terminated no-op, insufficient-funds
failure, or success. -/
inductive Outcome where
  | success
  | aborted
  | insufficient
  deriving DecidableEq, Repr

/-- Which branch `transfer_funds` takes, as a function of its inputs. -/
def transfer_outcome (source : Account) (is_terminated : Bool) : Outcome :=
  if is_terminated then Outcome.aborted
  else if source.balance < source.transfer_amount then Outcome.insufficient
  else Outcome.success

/-- The termination reasons the program can ever report: the two
insufficient-funds strings produced by `transfer_funds` for the two account
ids, and the watchdog's deadline string. -/
def validReason (r : String) : Prop :=
  r = "Insufficient funds in Account 1" ∨
  r = "Insufficient funds in Account 2" ∨
  r = "Global deadline expired"

/-- System invariant: the account ids stay 1 and 2, the balance total stays
at `total`, and whenever the termination flag is set the reason is valid. -/
def SysInv (total : Rat) (s : SysState) : Prop :=
  s.bank.account1.id = 1 ∧ s.bank.account2.id = 2 ∧
  s.bank.account1.balance + s.bank.account2.balance = total ∧
  (s.bank.is_terminated = true → validReason s.bank.termination_reason)

/-- Non-negativity invariant: both transfer amounts and both balances are
non-negative. -/
def NonnegInv (s : SysState) : Prop :=
  0 ≤ s.bank.account1.transfer_amount ∧ 0 ≤ s.bank.account2.transfer_amount ∧
  0 ≤ s.bank.account1.balance ∧ 0 ≤ s.bank.account2.balance

/-- Lock-system invariant: progress counters stay in range, mutex 1 is owned
by exactly the threads that have passed their first acquisition, and mutex 2
by exactly the threads in their critical section. -/
def LInv (s : LockSys) : Prop :=
  s.pc1 ≤ 2 ∧ s.pc2 ≤ 2 ∧
  (s.owner1 = some Tid.t1 ↔ 1 ≤ s.pc1) ∧
  (s.owner1 = some Tid.t2 ↔ 1 ≤ s.pc2) ∧
  (s.owner2 = some Tid.t1 ↔ s.pc1 = 2) ∧
  (s.owner2 = some Tid.t2 ↔ s.pc2 = 2)

/-- A concrete global state whose termination flag is already set. -/
def termBank : BankState :=
  { account1 := { balance := 100, transfer_amount := 30,
                  successful_transfers := 0, id := 1 },
    account2 := { balance := 50, transfer_amount := 40,
                  successful_transfers := 0, id := 2 },
    is_terminated := true,
    termination_reason := "Global deadline expired" }

/-- A concrete running global state (flag clear). -/
def runBank : BankState := initState 100 30 50 40

/-- The in-order byte stores performed by a C string copy of `s` into the
100-byte `termination_reason` buffer: characters at offsets 0, 1, ... and the
terminating NUL. Both `snprintf(termination_reason, 100, ...)` and
`strcpy(termination_reason, ...)` copy their result byte by byte in order. -/
def copyStores (s : String) : List (Nat × Char) :=
  s.toList.enum ++ [(s.toList.length, Char.ofNat 0)]

/-- Apply a sequence of byte stores to the buffer. -/
def applyStores (buf : List Char) (ws : List (Nat × Char)) : List Char :=
  ws.foldl (fun b p => b.set p.1 p.2) buf

/-- Read the buffer as a C string: the characters before the first NUL. -/
def readCString (buf : List Char) : String :=
  String.mk (buf.takeWhile (fun c => c != Char.ofNat 0))

/-- The buffer's initial contents: `char termination_reason[100] = ""` is
zero-initialised. -/
def reasonBuf0 : List Char := List.replicate 100 (Char.ofNat 0)

/-- `Interleaving ws1 ws2 zs`: `zs` is one possible order in which the
hardware can serialise the byte stores of two concurrent writers that share
no lock, preserving each writer's own program order. -/
inductive Interleaving :
    List (Nat × Char) → List (Nat × Char) → List (Nat × Char) → Prop where
  | nil : Interleaving [] [] []
  | left (x : Nat × Char) (xs ys zs : List (Nat × Char)) :
      Interleaving xs ys zs → Interleaving (x :: xs) ys (x :: zs)
  | right (y : Nat × Char) (xs ys zs : List (Nat × Char)) :
      Interleaving xs ys zs → Interleaving xs (y :: ys) (y :: zs)

section TransferLemmas

variable (source dest : Account) (reason : String)

/-- Already-terminated branch: everything unchanged, `-1` returned. -/
lemma transfer_funds_aborted_eq :
    transfer_funds source dest true reason =
      { ret := -1, source := source, dest := dest, terminated := true,
        reason := reason, record := none } := by
  simp [transfer_funds]

/-- Insufficient-funds branch. -/
lemma transfer_funds_insufficient_eq
    (hlt : source.balance < source.transfer_amount) :
    transfer_funds source dest false reason =
      { ret := -1, source := source, dest := dest, terminated := true,
        reason := "Insufficient funds in Account " ++ toString source.id,
        record := none } := by
  simp [transfer_funds, hlt]

/-- Success branch. -/
lemma transfer_funds_success_eq
    (hge : ¬ source.balance < source.transfer_amount) :
    transfer_funds source dest false reason =
      { ret := 0,
        source := { source with
                      balance := source.balance - source.transfer_amount,
                      successful_transfers := source.successful_transfers + 1 },
        dest := { dest with balance := dest.balance + source.transfer_amount },
        terminated := false, reason := reason,
        record := some { src_id := source.id, dest_id := dest.id,
                         amount := source.transfer_amount,
                         shown_id := source.id,
                         shown_balance := source.balance - source.transfer_amount } } := by
  simp [transfer_funds, hge]

/-- `transfer_funds` returns 0 exactly when not already terminated and the
source balance covers the transfer amount. -/
lemma transfer_funds_ret_zero_iff (term : Bool) :
    (transfer_funds source dest term reason).ret = 0 ↔
      term = false ∧ source.transfer_amount ≤ source.balance := by
  cases term with
  | false =>
      by_cases hlt : source.balance < source.transfer_amount
      · simp [transfer_funds_insufficient_eq source dest reason hlt, hlt]
      · simp [transfer_funds_success_eq source dest reason hlt, not_lt.mp hlt]
  | true => simp [transfer_funds_aborted_eq]

end TransferLemmas

/-- Claim C1: `lock_pair`, called with the two account mutexes in either
argument order, acquires them in the fixed total order "Account 1's mutex
first, then Account 2's mutex", and on return the caller holds both locks. -/
theorem lock_pair_fixed_order_and_both_held (m1 m2 : MutexId) (h : m1 ≠ m2) :
    lock_pair_order m1 m2 = [MutexId.acct1, MutexId.acct2] ∧
    MutexId.acct1 ∈ lock_pair [] m1 m2 ∧
    MutexId.acct2 ∈ lock_pair [] m1 m2 := by
  cases m1 <;> cases m2 <;> first
    | exact absurd rfl h
    | exact ⟨by decide, by decide, by decide⟩

/-- Witness for C1: the source-first argument order `(acct1, acct2)`. -/
theorem lock_pair_fixed_order_and_both_held_witness :
    lock_pair_order MutexId.acct1 MutexId.acct2 = [MutexId.acct1, MutexId.acct2] ∧
    MutexId.acct1 ∈ lock_pair [] MutexId.acct1 MutexId.acct2 ∧
    MutexId.acct2 ∈ lock_pair [] MutexId.acct1 MutexId.acct2 :=
  lock_pair_fixed_order_and_both_held MutexId.acct1 MutexId.acct2 (by decide)

/-- Claim C3: a successful `transfer_funds` call subtracts the source's
transfer amount from the source balance, adds it to the destination balance,
increments the source's success counter by exactly 1 and leaves the
destination's counter unchanged. -/
theorem transfer_success_postcondition (source dest : Account) (term : Bool)
    (reason : String)
    (h : (transfer_funds source dest term reason).ret = 0) :
    (transfer_funds source dest term reason).source.balance
        = source.balance - source.transfer_amount ∧
    (transfer_funds source dest term reason).dest.balance
        = dest.balance + source.transfer_amount ∧
    (transfer_funds source dest term reason).source.successful_transfers
        = source.successful_transfers + 1 ∧
    (transfer_funds source dest term reason).dest.successful_transfers
        = dest.successful_transfers := by
  obtain ⟨hterm, hge⟩ := (transfer_funds_ret_zero_iff source dest reason term).mp h
  subst hterm
  rw [transfer_funds_success_eq source dest reason (not_lt.mpr hge)]
  exact ⟨rfl, rfl, rfl, rfl⟩

/-- Witness for C3: account 1 with balance 100 transfers 30 to account 2
with balance 50. -/
theorem transfer_success_postcondition_witness :
    (transfer_funds { balance := 100, transfer_amount := 30,
                      successful_transfers := 0, id := 1 }
                    { balance := 50, transfer_amount := 40,
                      successful_transfers := 0, id := 2 } false "").source.balance
        = (100 : Rat) - 30 ∧
    (transfer_funds { balance := 100, transfer_amount := 30,
                      successful_transfers := 0, id := 1 }
                    { balance := 50, transfer_amount := 40,
                      successful_transfers := 0, id := 2 } false "").dest.balance
        = (50 : Rat) + 30 ∧
    (transfer_funds { balance := 100, transfer_amount := 30,
                      successful_transfers := 0, id := 1 }
                    { balance := 50, transfer_amount := 40,
                      successful_transfers := 0, id := 2 } false "").source.successful_transfers
        = 0 + 1 ∧
    (transfer_funds { balance := 100, transfer_amount := 30,
                      successful_transfers := 0, id := 1 }
                    { balance := 50, transfer_amount := 40,
                      successful_transfers := 0, id := 2 } false "").dest.successful_transfers
        = 0 :=
  transfer_success_postcondition _ _ false "" (by decide)

/-- Claim C5: with no termination signalled, a source balance exactly equal
to the transfer amount succeeds and leaves the source balance at 0, while a
source balance strictly below the transfer amount fails and records the
insufficient-funds termination for the source account. -/
theorem transfer_boundary (source dest : Account) (reason : String) :
    (source.balance = source.transfer_amount →
       (transfer_funds source dest false reason).ret = 0 ∧
       (transfer_funds source dest false reason).source.balance = 0) ∧
    (source.balance < source.transfer_amount →
       (transfer_funds source dest false reason).ret = -1 ∧
       (transfer_funds source dest false reason).terminated = true ∧
       (transfer_funds source dest false reason).reason =
         "Insufficient funds in Account " ++ toString source.id) := by
  constructor
  · intro heq
    rw [transfer_funds_success_eq source dest reason (by rw [heq]; exact lt_irrefl _)]
    exact ⟨rfl, by simp [heq]⟩
  · intro hlt
    rw [transfer_funds_insufficient_eq source dest reason hlt]
    exact ⟨rfl, rfl, rfl⟩

/-- Witness for C5: balance 30 with amount 30 succeeds and ends at 0;
balance 29 with amount 30 fails with the Account-1 insufficient-funds reason. -/
theorem transfer_boundary_witness :
    ((transfer_funds { balance := 30, transfer_amount := 30,
                       successful_transfers := 0, id := 1 }
                     { balance := 50, transfer_amount := 40,
                       successful_transfers := 0, id := 2 } false "").ret = 0 ∧
     (transfer_funds { balance := 30, transfer_amount := 30,
                       successful_transfers := 0, id := 1 }
                     { balance := 50, transfer_amount := 40,
                       successful_transfers := 0, id := 2 } false "").source.balance = 0) ∧
    ((transfer_funds { balance := 29, transfer_amount := 30,
                       successful_transfers := 0, id := 1 }
                     { balance := 50, transfer_amount := 40,
                       successful_transfers := 0, id := 2 } false "").ret = -1 ∧
     (transfer_funds { balance := 29, transfer_amount := 30,
                       successful_transfers := 0, id := 1 }
                     { balance := 50, transfer_amount := 40,
                       successful_transfers := 0, id := 2 } false "").terminated = true ∧
     (transfer_funds { balance := 29, transfer_amount := 30,
                       successful_transfers := 0, id := 1 }
                     { balance := 50, transfer_amount := 40,
                       successful_transfers := 0, id := 2 } false "").reason =
       "Insufficient funds in Account " ++ toString (1 : Nat)) :=
  ⟨(transfer_boundary _ _ "").1 (by decide),
   (transfer_boundary _ _ "").2 (by decide)⟩

/-- Claim C7: every `transfer_funds` call takes exactly one of the three
branches (success, already-terminated no-op, insufficient-funds failure);
the no-op branch changes nothing at all, and the insufficient-funds branch
changes only the termination state, leaving both account structs intact. -/
theorem transfer_reports_exactly_one_outcome (source dest : Account)
    (term : Bool) (reason : String) :
    (transfer_outcome source term = Outcome.success ∨
     transfer_outcome source term = Outcome.aborted ∨
     transfer_outcome source term = Outcome.insufficient) ∧
    (transfer_outcome source term = Outcome.success ↔
       (transfer_funds source dest term reason).ret = 0) ∧
    (transfer_outcome source term = Outcome.aborted →
       transfer_funds source dest term reason =
         { ret := -1, source := source, dest := dest, terminated := term,
           reason := reason, record := none }) ∧
    (transfer_outcome source term = Outcome.insufficient →
       (transfer_funds source dest term reason).ret = -1 ∧
       (transfer_funds source dest term reason).source = source ∧
       (transfer_funds source dest term reason).dest = dest ∧
       (transfer_funds source dest term reason).terminated = true) := by
  cases term with
  | true =>
      refine ⟨Or.inr (Or.inl (by simp [transfer_outcome])), ?_, ?_, ?_⟩
      · rw [transfer_funds_aborted_eq]
        simp [transfer_outcome]
      · intro _
        exact transfer_funds_aborted_eq source dest reason
      · intro hcon
        simp [transfer_outcome] at hcon
  | false =>
      by_cases hlt : source.balance < source.transfer_amount
      · refine ⟨Or.inr (Or.inr (by simp [transfer_outcome, hlt])), ?_, ?_, ?_⟩
        · rw [transfer_funds_insufficient_eq source dest reason hlt]
          simp [transfer_outcome, hlt]
        · intro hcon
          simp [transfer_outcome, hlt] at hcon
        · intro _
          rw [transfer_funds_insufficient_eq source dest reason hlt]
          exact ⟨rfl, rfl, rfl, rfl⟩
      · refine ⟨Or.inl (by simp [transfer_outcome, hlt]), ?_, ?_, ?_⟩
        · rw [transfer_funds_success_eq source dest reason hlt]
          simp [transfer_outcome, hlt]
        · intro hcon
          simp [transfer_outcome, hlt] at hcon
        · intro hcon
          simp [transfer_outcome, hlt] at hcon

/-- Witness for C7: an already-terminated call on concrete accounts. -/
theorem transfer_reports_exactly_one_outcome_witness :
    transfer_funds { balance := 100, transfer_amount := 30,
                     successful_transfers := 0, id := 1 }
                   { balance := 50, transfer_amount := 40,
                     successful_transfers := 0, id := 2 } true "r" =
      { ret := -1,
        source := { balance := 100, transfer_amount := 30,
                    successful_transfers := 0, id := 1 },
        dest := { balance := 50, transfer_amount := 40,
                  successful_transfers := 0, id := 2 },
        terminated := true, reason := "r", record := none } :=
  (transfer_reports_exactly_one_outcome _ _ true "r").2.2.1 (by decide)

/-- Counterexample to C9 as stated: in the successful transfer of 30 from
account 1 (balance 100) to account 2 (balance 50), the emitted record holds
the source's new balance 70 (labelled with id 1), while the destination's new
balance is 80; no numeric field of the record equals 80. -/
theorem transfer_record_not_dest_balance :
    (transfer_funds { balance := 100, transfer_amount := 30,
                      successful_transfers := 0, id := 1 }
                    { balance := 50, transfer_amount := 40,
                      successful_transfers := 0, id := 2 } false "").ret = 0 ∧
    (transfer_funds { balance := 100, transfer_amount := 30,
                      successful_transfers := 0, id := 1 }
                    { balance := 50, transfer_amount := 40,
                      successful_transfers := 0, id := 2 } false "").record =
      some { src_id := 1, dest_id := 2, amount := 30,
             shown_id := 1, shown_balance := 70 } ∧
    (transfer_funds { balance := 100, transfer_amount := 30,
                      successful_transfers := 0, id := 1 }
                    { balance := 50, transfer_amount := 40,
                      successful_transfers := 0, id := 2 } false "").dest.balance = 80 ∧
    (70 : Rat) ≠ 80 ∧ (30 : Rat) ≠ 80 := by
  rw [transfer_funds_success_eq _ _ _ (by norm_num)]
  refine ⟨rfl, ?_, by norm_num, by norm_num, by norm_num⟩
  simp only [Option.some.injEq, TransferRecord.mk.injEq]
  norm_num

/-- Claim C9 amended: the record emitted on a successful transfer contains
the source id, the destination id, the amount, and the SOURCE account's new
balance (labelled with the source id) — not the destination's. -/
theorem transfer_record_contents (source dest : Account) (term : Bool)
    (reason : String)
    (h : (transfer_funds source dest term reason).ret = 0) :
    (transfer_funds source dest term reason).record =
      some { src_id := source.id, dest_id := dest.id,
             amount := source.transfer_amount,
             shown_id := source.id,
             shown_balance := (transfer_funds source dest term reason).source.balance } := by
  obtain ⟨hterm, hge⟩ := (transfer_funds_ret_zero_iff source dest reason term).mp h
  subst hterm
  rw [transfer_funds_success_eq source dest reason (not_lt.mpr hge)]

/-- Witness for C9's amended claim: the concrete 100/30 → 50 transfer. -/
theorem transfer_record_contents_witness :
    (transfer_funds { balance := 100, transfer_amount := 30,
                      successful_transfers := 0, id := 1 }
                    { balance := 50, transfer_amount := 40,
                      successful_transfers := 0, id := 2 } false "").record =
      some { src_id := 1, dest_id := 2, amount := 30, shown_id := 1,
             shown_balance := (transfer_funds { balance := 100, transfer_amount := 30,
                                                successful_transfers := 0, id := 1 }
                                              { balance := 50, transfer_amount := 40,
                                                successful_transfers := 0, id := 2 }
                                              false "").source.balance } :=
  transfer_record_contents _ _ false "" (by decide)

/-- Case analysis on the three branches of `transfer_funds`. -/
lemma transfer_funds_cases (source dest : Account) (term : Bool) (reason : String) :
    (term = true ∧
       transfer_funds source dest term reason =
         { ret := -1, source := source, dest := dest, terminated := true,
           reason := reason, record := none }) ∨
    (term = false ∧ source.balance < source.transfer_amount ∧
       transfer_funds source dest term reason =
         { ret := -1, source := source, dest := dest, terminated := true,
           reason := "Insufficient funds in Account " ++ toString source.id,
           record := none }) ∨
    (term = false ∧ ¬ source.balance < source.transfer_amount ∧
       transfer_funds source dest term reason =
         { ret := 0,
           source := { source with
                         balance := source.balance - source.transfer_amount,
                         successful_transfers := source.successful_transfers + 1 },
           dest := { dest with balance := dest.balance + source.transfer_amount },
           terminated := false, reason := reason,
           record := some { src_id := source.id, dest_id := dest.id,
                            amount := source.transfer_amount,
                            shown_id := source.id,
                            shown_balance := source.balance - source.transfer_amount } }) := by
  cases term with
  | true => exact Or.inl ⟨rfl, transfer_funds_aborted_eq source dest reason⟩
  | false =>
      by_cases hlt : source.balance < source.transfer_amount
      · exact Or.inr (Or.inl ⟨rfl, hlt, transfer_funds_insufficient_eq source dest reason hlt⟩)
      · exact Or.inr (Or.inr ⟨rfl, hlt, transfer_funds_success_eq source dest reason hlt⟩)

/-- `transfer_funds` preserves the sum of the two balances. -/
lemma transfer_funds_balance_sum (source dest : Account) (term : Bool) (reason : String) :
    (transfer_funds source dest term reason).source.balance +
      (transfer_funds source dest term reason).dest.balance =
    source.balance + dest.balance := by
  rcases transfer_funds_cases source dest term reason with
    ⟨_, h⟩ | ⟨_, _, h⟩ | ⟨_, _, h⟩ <;> rw [h] <;> dsimp <;> ring

/-- `transfer_funds` never changes the ids or the transfer amounts. -/
lemma transfer_funds_meta (source dest : Account) (term : Bool) (reason : String) :
    (transfer_funds source dest term reason).source.id = source.id ∧
    (transfer_funds source dest term reason).source.transfer_amount
      = source.transfer_amount ∧
    (transfer_funds source dest term reason).dest.id = dest.id ∧
    (transfer_funds source dest term reason).dest.transfer_amount
      = dest.transfer_amount := by
  rcases transfer_funds_cases source dest term reason with
    ⟨_, h⟩ | ⟨_, _, h⟩ | ⟨_, _, h⟩ <;> rw [h] <;> exact ⟨rfl, rfl, rfl, rfl⟩

/-- `transfer_funds` never clears the termination flag. -/
lemma transfer_funds_terminated_mono (source dest : Account) (reason : String) :
    (transfer_funds source dest true reason).terminated = true := by
  rw [transfer_funds_aborted_eq]

/-- If `transfer_funds` ends terminated, the reason is either the unchanged
incoming reason (the call started terminated) or the insufficient-funds
string for the source account. -/
lemma transfer_funds_reason (source dest : Account) (term : Bool) (reason : String)
    (h : (transfer_funds source dest term reason).terminated = true) :
    (term = true ∧ (transfer_funds source dest term reason).reason = reason) ∨
    (term = false ∧ (transfer_funds source dest term reason).reason =
       "Insufficient funds in Account " ++ toString source.id) := by
  rcases transfer_funds_cases source dest term reason with
    ⟨ht, he⟩ | ⟨ht, _, he⟩ | ⟨ht, _, he⟩
  · exact Or.inl ⟨ht, by rw [he]⟩
  · exact Or.inr ⟨ht, by rw [he]⟩
  · rw [he] at h
    exact absurd h (by simp)

/-- `transfer_funds` keeps non-negative balances non-negative, given a
non-negative source transfer amount. -/
lemma transfer_funds_nonneg (source dest : Account) (term : Bool) (reason : String)
    (hs : 0 ≤ source.balance) (hd : 0 ≤ dest.balance)
    (ht : 0 ≤ source.transfer_amount) :
    0 ≤ (transfer_funds source dest term reason).source.balance ∧
    0 ≤ (transfer_funds source dest term reason).dest.balance := by
  rcases transfer_funds_cases source dest term reason with
    ⟨_, h⟩ | ⟨_, _, h⟩ | ⟨_, hge, h⟩ <;> rw [h]
  · exact ⟨hs, hd⟩
  · exact ⟨hs, hd⟩
  · exact ⟨sub_nonneg.mpr (not_lt.mp hge), add_nonneg hd ht⟩

/-- One system step never clears the termination flag. -/
lemma sysStep_flag_mono (s s' : SysState) (h : SysStep s s')
    (ht : s.bank.is_terminated = true) : s'.bank.is_terminated = true := by
  cases h with
  | actor d b w =>
      cases d <;> simp only [step_transfer] <;> rw [ht] <;>
        exact transfer_funds_terminated_mono _ _ _
  | wcheck b => exact ht
  | wset b => rfl
  | wskip b => exact ht

/-- One system step preserves `SysInv`. -/
lemma sysStep_preserves_SysInv (total : Rat) (s s' : SysState) (h : SysStep s s')
    (hi : SysInv total s) : SysInv total s' := by
  obtain ⟨hi1, hi2, hsum, hreason⟩ := hi
  cases h with
  | actor d b w =>
      cases d with
      | oneToTwo =>
          refine ⟨?_, ?_, ?_, ?_⟩
          · exact ((transfer_funds_meta b.account1 b.account2 b.is_terminated
              b.termination_reason).1).trans hi1
          · exact ((transfer_funds_meta b.account1 b.account2 b.is_terminated
              b.termination_reason).2.2.1).trans hi2
          · exact (transfer_funds_balance_sum b.account1 b.account2 b.is_terminated
              b.termination_reason).trans hsum
          · intro hterm
            rcases transfer_funds_reason b.account1 b.account2 b.is_terminated
                b.termination_reason hterm with ⟨hb, hr⟩ | ⟨hb, hr⟩
            · show validReason (transfer_funds b.account1 b.account2 b.is_terminated
                b.termination_reason).reason
              rw [hr]
              exact hreason hb
            · show validReason (transfer_funds b.account1 b.account2 b.is_terminated
                b.termination_reason).reason
              rw [hr, hi1]
              exact Or.inl rfl
      | twoToOne =>
          refine ⟨?_, ?_, ?_, ?_⟩
          · exact ((transfer_funds_meta b.account2 b.account1 b.is_terminated
              b.termination_reason).2.2.1).trans hi1
          · exact ((transfer_funds_meta b.account2 b.account1 b.is_terminated
              b.termination_reason).1).trans hi2
          · have := transfer_funds_balance_sum b.account2 b.account1 b.is_terminated
              b.termination_reason
            show (transfer_funds b.account2 b.account1 b.is_terminated
                b.termination_reason).dest.balance +
              (transfer_funds b.account2 b.account1 b.is_terminated
                b.termination_reason).source.balance = total
            rw [add_comm, this, add_comm]
            exact hsum
          · intro hterm
            rcases transfer_funds_reason b.account2 b.account1 b.is_terminated
                b.termination_reason hterm with ⟨hb, hr⟩ | ⟨hb, hr⟩
            · show validReason (transfer_funds b.account2 b.account1 b.is_terminated
                b.termination_reason).reason
              rw [hr]
              exact hreason hb
            · show validReason (transfer_funds b.account2 b.account1 b.is_terminated
                b.termination_reason).reason
              rw [hr, hi2]
              exact Or.inr (Or.inl rfl)
  | wcheck b => exact ⟨hi1, hi2, hsum, hreason⟩
  | wset b => exact ⟨hi1, hi2, hsum, fun _ => Or.inr (Or.inr rfl)⟩
  | wskip b => exact ⟨hi1, hi2, hsum, hreason⟩

/-- One system step preserves `NonnegInv`. -/
lemma sysStep_preserves_NonnegInv (s s' : SysState) (h : SysStep s s')
    (hi : NonnegInv s) : NonnegInv s' := by
  obtain ⟨ht1, ht2, hb1, hb2⟩ := hi
  cases h with
  | actor d b w =>
      cases d with
      | oneToTwo =>
          obtain ⟨hm1, hm2, hm3, hm4⟩ := transfer_funds_meta b.account1 b.account2
            b.is_terminated b.termination_reason
          obtain ⟨hn1, hn2⟩ := transfer_funds_nonneg b.account1 b.account2
            b.is_terminated b.termination_reason hb1 hb2 ht1
          exact ⟨hm2.symm ▸ ht1, hm4.symm ▸ ht2, hn1, hn2⟩
      | twoToOne =>
          obtain ⟨hm1, hm2, hm3, hm4⟩ := transfer_funds_meta b.account2 b.account1
            b.is_terminated b.termination_reason
          obtain ⟨hn1, hn2⟩ := transfer_funds_nonneg b.account2 b.account1
            b.is_terminated b.termination_reason hb2 hb1 ht2
          exact ⟨hm4.symm ▸ ht1, hm2.symm ▸ ht2, hn2, hn1⟩
  | wcheck b => exact ⟨ht1, ht2, hb1, hb2⟩
  | wset b => exact ⟨ht1, ht2, hb1, hb2⟩
  | wskip b => exact ⟨ht1, ht2, hb1, hb2⟩

/-- Every reachable system state satisfies `SysInv` for the initial total. -/
lemma sysReachable_SysInv (b1 t1 b2 t2 : Rat) (s : SysState)
    (h : SysReachable (sysInit b1 t1 b2 t2) s) : SysInv (b1 + b2) s := by
  induction h with
  | refl => exact ⟨rfl, rfl, rfl, fun hc => by simp [sysInit, initState] at hc⟩
  | tail _ hstep ih => exact sysStep_preserves_SysInv _ _ _ hstep ih

/-- Every reachable system state satisfies `NonnegInv`, given non-negative
initial balances and transfer amounts. -/
lemma sysReachable_NonnegInv (b1 t1 b2 t2 : Rat) (s : SysState)
    (hb1 : 0 ≤ b1) (ht1 : 0 ≤ t1) (hb2 : 0 ≤ b2) (ht2 : 0 ≤ t2)
    (h : SysReachable (sysInit b1 t1 b2 t2) s) : NonnegInv s := by
  induction h with
  | refl => exact ⟨ht1, ht2, hb1, hb2⟩
  | tail _ hstep ih => exact sysStep_preserves_NonnegInv _ _ hstep ih

/-- Claim C4: in every run from the initial configuration, at every point
where no operation is mid-mutation (i.e. in every state of the interleaving
semantics, whose transfer steps are atomic), the two balances sum to the sum
of the initial balances. -/
theorem conservation_of_money (b1 t1 b2 t2 : Rat) (s : SysState)
    (h : SysReachable (sysInit b1 t1 b2 t2) s) :
    s.bank.account1.balance + s.bank.account2.balance = b1 + b2 :=
  (sysReachable_SysInv b1 t1 b2 t2 s h).2.2.1

/-- Witness for C4: after one successful 1→2 transfer from balances 100 and
50, the balances still sum to 150. -/
theorem conservation_of_money_witness :
    { bank := (step_transfer Dir.oneToTwo (initState 100 30 50 40)).state,
      watch := WatchPC.sleeping : SysState }.bank.account1.balance +
    { bank := (step_transfer Dir.oneToTwo (initState 100 30 50 40)).state,
      watch := WatchPC.sleeping : SysState }.bank.account2.balance =
      (100 : Rat) + 50 :=
  conservation_of_money 100 30 50 40 _
    (Relation.ReflTransGen.single
      (SysStep.actor Dir.oneToTwo (initState 100 30 50 40) WatchPC.sleeping))

/-- Claim C10: from non-negative initial balances and positive transfer
amounts, every reachable state keeps both balances non-negative. -/
theorem balances_stay_nonneg (b1 t1 b2 t2 : Rat) (s : SysState)
    (hb1 : 0 ≤ b1) (hb2 : 0 ≤ b2) (ht1 : 0 < t1) (ht2 : 0 < t2)
    (h : SysReachable (sysInit b1 t1 b2 t2) s) :
    0 ≤ s.bank.account1.balance ∧ 0 ≤ s.bank.account2.balance :=
  ⟨(sysReachable_NonnegInv b1 t1 b2 t2 s hb1 ht1.le hb2 ht2.le h).2.2.1,
   (sysReachable_NonnegInv b1 t1 b2 t2 s hb1 ht1.le hb2 ht2.le h).2.2.2⟩

/-- Witness for C10: one 2→1 transfer from balances 100 and 50. -/
theorem balances_stay_nonneg_witness :
    0 ≤ { bank := (step_transfer Dir.twoToOne (initState 100 30 50 40)).state,
          watch := WatchPC.sleeping : SysState }.bank.account1.balance ∧
    0 ≤ { bank := (step_transfer Dir.twoToOne (initState 100 30 50 40)).state,
          watch := WatchPC.sleeping : SysState }.bank.account2.balance :=
  balances_stay_nonneg 100 30 50 40 _ (by norm_num) (by norm_num) (by norm_num)
    (by norm_num)
    (Relation.ReflTransGen.single
      (SysStep.actor Dir.twoToOne (initState 100 30 50 40) WatchPC.sleeping))

/-- Both threads acquire in the same fixed order, Account 1's mutex first:
the `lock_pair` call of either thread normalises to `[acct1, acct2]`. -/
lemma acqSeq_eq (t : Tid) : acqSeq t = [MutexId.acct1, MutexId.acct2] := by
  cases t <;> rfl

/-- The only acquisitions a thread can perform: its first lock is Account 1's
mutex, its second Account 2's. -/
lemma acqSeq_get (t : Tid) (n : Nat) (m : MutexId)
    (h : (acqSeq t).get? n = some m) :
    (n = 0 ∧ m = MutexId.acct1) ∨ (n = 1 ∧ m = MutexId.acct2) := by
  rw [acqSeq_eq] at h
  match n with
  | 0 => exact Or.inl ⟨rfl, by simpa using h.symm⟩
  | 1 => exact Or.inr ⟨rfl, by simpa using h.symm⟩
  | n + 2 => simp [List.get?] at h

/-- `LInv` holds initially. -/
lemma LInv_init : LInv lockInit := by
  unfold LInv lockInit
  decide

/-- `LInv` is preserved by every lock-system step. -/
lemma LInv_step (s s' : LockSys) (h : LockStep s s') (hi : LInv s) : LInv s' := by
  obtain ⟨p1, p2, o1, o2⟩ := s
  obtain ⟨hp1, hp2, h11, h12, h21, h22⟩ := hi
  cases h with
  | acquire t m hget hfree =>
      rcases acqSeq_get t _ m hget with ⟨hn, hm⟩ | ⟨hn, hm⟩ <;> subst hm <;> cases t <;>
        simp only [LInv, LockSys.pc, LockSys.setPc, LockSys.setOwner,
          LockSys.owner] at hn hfree h11 h12 h21 h22 ⊢ <;>
        subst hfree <;> subst hn <;>
        refine ⟨?_, ?_, ?_, ?_, ?_, ?_⟩ <;> simp_all <;> omega
  | release t h2 ho1 ho2 =>
      cases t <;>
        simp only [LInv, LockSys.pc, LockSys.setPc, LockSys.setOwner,
          LockSys.owner] at h2 ho1 ho2 h11 h12 h21 h22 ⊢ <;>
        subst ho1 <;> subst ho2 <;> subst h2 <;>
        refine ⟨?_, ?_, ?_, ?_, ?_, ?_⟩ <;> simp_all <;> omega


/-- Under `LInv`, some thread can always move: there is no state in which
both threads are blocked in `pthread_mutex_lock` waiting on each other. -/
lemma LInv_progress (s : LockSys) (h : LInv s) : ∃ s', LockStep s s' := by
  obtain ⟨hp1, hp2, h11, h12, h21, h22⟩ := h
  by_cases c1 : s.pc1 = 2
  · exact ⟨_, LockStep.release s Tid.t1 c1 (h11.mpr (by omega)) (h21.mpr c1)⟩
  · by_cases c2 : s.pc2 = 2
    · exact ⟨_, LockStep.release s Tid.t2 c2 (h12.mpr (by omega)) (h22.mpr c2)⟩
    · have hfree2 : s.owner2 = none := by
        cases ho : s.owner2 with
        | none => rfl
        | some u =>
            cases u with
            | t1 => exact absurd (h21.mp ho) c1
            | t2 => exact absurd (h22.mp ho) c2
      by_cases d1 : s.pc1 = 1
      · refine ⟨_, LockStep.acquire s Tid.t1 MutexId.acct2 ?_ hfree2⟩
        show (acqSeq Tid.t1).get? s.pc1 = some MutexId.acct2
        rw [d1, acqSeq_eq]
        rfl
      · by_cases d2 : s.pc2 = 1
        · refine ⟨_, LockStep.acquire s Tid.t2 MutexId.acct2 ?_ hfree2⟩
          show (acqSeq Tid.t2).get? s.pc2 = some MutexId.acct2
          rw [d2, acqSeq_eq]
          rfl
        · have e1 : s.pc1 = 0 := by omega
          have hfree1 : s.owner1 = none := by
            cases ho : s.owner1 with
            | none => rfl
            | some u =>
                cases u with
                | t1 => exact absurd (h11.mp ho) (by omega)
                | t2 => exact absurd (h12.mp ho) (by omega)
          refine ⟨_, LockStep.acquire s Tid.t1 MutexId.acct1 ?_ hfree1⟩
          show (acqSeq Tid.t1).get? s.pc1 = some MutexId.acct1
          rw [e1, acqSeq_eq]
          rfl

/-- Every reachable lock state satisfies `LInv`. -/
lemma lockReachable_LInv (s : LockSys) (h : LockReachable s) : LInv s := by
  induction h with
  | refl => exact LInv_init
  | tail _ hstep ih => exact LInv_step _ _ hstep ih

/-- With the termination flag set, a `transfer_funds` call is a pure no-op
returning -1. -/
lemma step_transfer_terminated (d : Dir) (b : BankState)
    (h : b.is_terminated = true) :
    step_transfer d b = { ret := -1, state := b, record := none } := by
  obtain ⟨a1, a2, it, tr⟩ := b
  cases it with
  | false => simp at h
  | true => cases d <;> simp [step_transfer, transfer_funds_aborted_eq]

/-- Claim C2: the two threads can never deadlock — in every reachable state
of the lock system some step is enabled, because both threads acquire the
contended pair in the same fixed order — and once the termination flag is
set (e.g. by the deadline watchdog), each actor loop halts within at most
three of its own steps (its bounded overshoot: at most one final
`transfer_funds` call, which no-ops). -/
theorem no_deadlock_and_actors_halt :
    (∀ s : LockSys, LockReachable s → ∃ s', LockStep s s') ∧
    (∀ (d : Dir) (b : BankState) (p : ActorPhase), b.is_terminated = true →
       (actor_step d (actor_step d (actor_step d (b, p)))).2 = ActorPhase.stopped) := by
  constructor
  · intro s hs
    exact LInv_progress s (lockReachable_LInv s hs)
  · intro d b p h
    cases p <;>
      simp [actor_step, h, step_transfer_terminated d b h]

/-- Witness for C2: the initial lock state can step, and a terminated bank
state halts the 1→2 actor from its sleep phase within three steps. -/
theorem no_deadlock_and_actors_halt_witness :
    (∃ s', LockStep lockInit s') ∧
    (actor_step Dir.oneToTwo (actor_step Dir.oneToTwo (actor_step Dir.oneToTwo
        (termBank, ActorPhase.atSleep)))).2 = ActorPhase.stopped :=
  ⟨no_deadlock_and_actors_halt.1 lockInit Relation.ReflTransGen.refl,
   no_deadlock_and_actors_halt.2 Dir.oneToTwo termBank ActorPhase.atSleep rfl⟩

/-- Counterexample to C8 as stated: it is not true that an actor's loop
stops only via a non-success `transfer_funds` result. With the termination
flag set, the loop's own `while (!is_terminated)` condition (`atCheck`)
stops the actor directly, without any `transfer_funds` call: the loop does
poll the Termination State outside the operation. -/
theorem actor_stops_without_transfer_call :
    ¬ (∀ (d : Dir) (b : BankState) (p : ActorPhase),
          (actor_step d (b, p)).2 = ActorPhase.stopped →
          p ≠ ActorPhase.stopped →
          p = ActorPhase.atCall ∧ (step_transfer d b).ret ≠ 0) := by
  intro hclaim
  have h := hclaim Dir.oneToTwo termBank ActorPhase.atCheck rfl (by decide)
  exact absurd h.1 (by decide)

/-- Claim C8 amended: the actor's loop stops only from its `while`-condition
check observing the termination flag or from a non-success `transfer_funds`
result; the first attempt occurs immediately (from the start phase, with the
flag clear, the very next step is the `transfer_funds` call, with no sleep
before it); after each success the actor sleeps, and only then re-enters the
loop condition. -/
theorem actor_loop_behaviour :
    (∀ (d : Dir) (b : BankState) (p : ActorPhase),
       (actor_step d (b, p)).2 = ActorPhase.stopped → p ≠ ActorPhase.stopped →
       (p = ActorPhase.atCheck ∧ b.is_terminated = true) ∨
       (p = ActorPhase.atCall ∧ (step_transfer d b).ret ≠ 0)) ∧
    (∀ (d : Dir) (b : BankState), b.is_terminated = false →
       actor_step d (b, actor_start) = (b, ActorPhase.atCall)) ∧
    (∀ (d : Dir) (b : BankState), (step_transfer d b).ret = 0 →
       actor_step d (b, ActorPhase.atCall) =
         ((step_transfer d b).state, ActorPhase.atSleep)) ∧
    (∀ (d : Dir) (b : BankState),
       actor_step d (b, ActorPhase.atSleep) = (b, ActorPhase.atCheck)) := by
  refine ⟨?_, ?_, ?_, fun d b => rfl⟩
  · intro d b p h hne
    cases p with
    | atCheck =>
        cases hb : b.is_terminated with
        | false => simp [actor_step, hb] at h
        | true => exact Or.inl ⟨rfl, rfl⟩
    | atCall =>
        by_cases hr : (step_transfer d b).ret = 0
        · simp [actor_step, hr] at h
        · exact Or.inr ⟨rfl, hr⟩
    | atSleep => simp [actor_step] at h
    | stopped => exact absurd rfl hne
  · intro d b hb
    simp [actor_step, actor_start, hb]
  · intro d b hr
    simp [actor_step, hr]

/-- Witness for C8's amended claim: the flag-check stop on `termBank`, and
the immediate first call, sleep-after-success, and wake-to-check transitions
on the running state `runBank`. -/
theorem actor_loop_behaviour_witness :
    ((ActorPhase.atCheck = ActorPhase.atCheck ∧ termBank.is_terminated = true) ∨
     (ActorPhase.atCheck = ActorPhase.atCall ∧
        (step_transfer Dir.oneToTwo termBank).ret ≠ 0)) ∧
    actor_step Dir.oneToTwo (runBank, actor_start) = (runBank, ActorPhase.atCall) ∧
    actor_step Dir.oneToTwo (runBank, ActorPhase.atCall) =
      ((step_transfer Dir.oneToTwo runBank).state, ActorPhase.atSleep) ∧
    actor_step Dir.oneToTwo (runBank, ActorPhase.atSleep) = (runBank, ActorPhase.atCheck) :=
  ⟨actor_loop_behaviour.1 Dir.oneToTwo termBank ActorPhase.atCheck rfl (by decide),
   actor_loop_behaviour.2.1 Dir.oneToTwo runBank rfl,
   actor_loop_behaviour.2.2.1 Dir.oneToTwo runBank (by decide),
   actor_loop_behaviour.2.2.2 Dir.oneToTwo runBank⟩

/-- The flag's one-way transition and the whole-write-granularity reason
invariant: a set flag stays set under every step, and at atomic-whole-string
granularity a set flag always carries a valid reason. (This is the part of
the Termination State invariant the program does establish; see the torn
reason theorem for the part it does not.) -/
lemma flag_one_way_and_reason_valid_at_word_granularity :
    (∀ s s' : SysState, SysStep s s' → s.bank.is_terminated = true →
       s'.bank.is_terminated = true) ∧
    (∀ (b1 t1 b2 t2 : Rat) (s : SysState),
       SysReachable (sysInit b1 t1 b2 t2) s → s.bank.is_terminated = true →
       validReason s.bank.termination_reason) :=
  ⟨sysStep_flag_mono,
   fun b1 t1 b2 t2 s h hterm => (sysReachable_SysInv b1 t1 b2 t2 s h).2.2.2 hterm⟩

/-- A writer running alone serialises to its own store sequence. -/
lemma interleaving_nil_right (xs : List (Nat × Char)) : Interleaving xs [] xs := by
  induction xs with
  | nil => exact Interleaving.nil
  | cons x l ih => exact Interleaving.left x l [] l ih

/-- Prefixing the first writer's stores. -/
lemma interleaving_append_left (xs' : List (Nat × Char))
    {xs ys zs : List (Nat × Char)} (h : Interleaving xs ys zs) :
    Interleaving (xs' ++ xs) ys (xs' ++ zs) := by
  induction xs' with
  | nil => simpa using h
  | cons a l ih => exact Interleaving.left a _ _ _ ih

/-- Prefixing the second writer's stores. -/
lemma interleaving_append_right (ys' : List (Nat × Char))
    {xs ys zs : List (Nat × Char)} (h : Interleaving xs ys zs) :
    Interleaving xs (ys' ++ ys) (ys' ++ zs) := by
  induction ys' with
  | nil => simpa using h
  | cons a l ih => exact Interleaving.right a _ _ _ ih

/-- Claim C6 (code bug): at the failing input — Account 2 holding 39 against
a transfer amount of 40, racing the expired deadline — `transfer_funds`
takes the insufficient-funds branch and its `snprintf` writes
"Insufficient funds in Account 2" while the watchdog, which checked
`is_terminated` before that branch set it and holds no lock, concurrently
`strcpy`s "Global deadline expired" into the same buffer. Byte-wise
serialisations of the two unsynchronised copies include one whose final
buffer reads "Global deadline expiredccount 2": a non-empty torn
concatenation that is neither valid reason, contradicting the claim's
"never a mixture or concatenation of both". -/
theorem torn_termination_reason_possible :
    (transfer_funds { balance := 39, transfer_amount := 40,
                      successful_transfers := 0, id := 2 }
                    { balance := 100, transfer_amount := 30,
                      successful_transfers := 0, id := 1 } false "").ret = -1 ∧
    (transfer_funds { balance := 39, transfer_amount := 40,
                      successful_transfers := 0, id := 2 }
                    { balance := 100, transfer_amount := 30,
                      successful_transfers := 0, id := 1 } false "").reason =
      "Insufficient funds in Account " ++ toString (2 : Nat) ∧
    ∃ zs,
      Interleaving
        (copyStores ((transfer_funds { balance := 39, transfer_amount := 40,
                                       successful_transfers := 0, id := 2 }
                                     { balance := 100, transfer_amount := 30,
                                       successful_transfers := 0, id := 1 }
                                     false "").reason))
        (copyStores "Global deadline expired") zs ∧
      readCString (applyStores reasonBuf0 zs) = "Global deadline expiredccount 2" ∧
      ¬ validReason (readCString (applyStores reasonBuf0 zs)) ∧
      readCString (applyStores reasonBuf0 zs) ≠ "" := by
  refine ⟨by decide, by decide, ?_⟩
  refine ⟨(copyStores ((transfer_funds { balance := 39, transfer_amount := 40,
                                         successful_transfers := 0, id := 2 }
                                       { balance := 100, transfer_amount := 30,
                                         successful_transfers := 0, id := 1 }
                                       false "").reason)).take 23 ++
            (copyStores "Global deadline expired" ++
              (copyStores ((transfer_funds { balance := 39, transfer_amount := 40,
                                             successful_transfers := 0, id := 2 }
                                           { balance := 100, transfer_amount := 30,
                                             successful_transfers := 0, id := 1 }
                                           false "").reason)).drop 23),
          ?_, ?_, ?_, ?_⟩
  · have h1 := interleaving_nil_right
      ((copyStores ((transfer_funds { balance := 39, transfer_amount := 40,
                                      successful_transfers := 0, id := 2 }
                                    { balance := 100, transfer_amount := 30,
                                      successful_transfers := 0, id := 1 }
                                    false "").reason)).drop 23)
    have h2 := interleaving_append_right (copyStores "Global deadline expired") h1
    have h3 := interleaving_append_left
      ((copyStores ((transfer_funds { balance := 39, transfer_amount := 40,
                                      successful_transfers := 0, id := 2 }
                                    { balance := 100, transfer_amount := 30,
                                      successful_transfers := 0, id := 1 }
                                    false "").reason)).take 23) h2
    simpa [List.take_append_drop] using h3
  · decide
  · unfold validReason
    decide
  · decide

end BankTask
